import Mathlib

/-!
Verification of the ast-grep CLI argument layer (`crates/cli/src/utils/args.rs`
and `crates/cli/src/main.rs`) against its design specification.

The Rust code is shallowly embedded: structs become Lean structures, the
builder chain of the `ignore` crate's `WalkBuilder` is represented by the
record of configuration it accumulates, fallible operations return
`Except`/`Option`, and a Rust panic (`expect`) is a distinguished outcome.
-/

/-- File types to ignore (`IgnoreFile` in args.rs), mostly as in ripgrep. -/
inductive IgnoreFile where
  | Hidden
  | Dot
  | Exclude
  | Global
  | Parent
  | Vcs
deriving DecidableEq, Fintype, Repr

/-- The `NoIgnore` struct of args.rs: which ignore sources to disregard.
Field order follows the Rust declaration; `#[derive(Default)]` gives all
fields `false`. -/
structure NoIgnore where
  disregard_hidden : Bool := false
  disregard_parent : Bool := false
  disregard_dot : Bool := false
  disregard_vcs : Bool := false
  disregard_global : Bool := false
  disregard_exclude : Bool := false
deriving DecidableEq, Repr

/-- The body of the `for ignore in ignores` loop of `NoIgnore::disregard`:
one `IgnoreFile` sets exactly one flag of the accumulator to `true`. -/
def NoIgnore.disregardStep (ret : NoIgnore) (ignore : IgnoreFile) : NoIgnore :=
  match ignore with
  | .Hidden => { ret with disregard_hidden := true }
  | .Dot => { ret with disregard_dot := true }
  | .Exclude => { ret with disregard_exclude := true }
  | .Global => { ret with disregard_global := true }
  | .Parent => { ret with disregard_parent := true }
  | .Vcs => { ret with disregard_vcs := true }

/-- `NoIgnore::disregard`: fold the loop body over the `--no-ignore` list,
starting from `NoIgnore::default()`. -/
def NoIgnore.disregard (ignores : List IgnoreFile) : NoIgnore :=
  ignores.foldl NoIgnore.disregardStep {}

/-- Configuration accumulated on the `ignore` crate's `WalkBuilder` by the
code in args.rs.  Defaults are the crate's: hidden files skipped and every
ignore source respected, no override globs, no file-type filter. -/
structure WalkBuilder where
  paths : List String
  hidden : Bool := true
  parents : Bool := true
  ignore : Bool := true
  git_global : Bool := true
  git_ignore : Bool := true
  git_exclude : Bool := true
  threads : Nat := 0
  follow_links : Bool := false
  overrides : Option (List String) := none
  types : Option String := none
deriving DecidableEq, Repr

/-- `NoIgnore::walk`: build a `WalkBuilder` over the given root paths.  The
Rust code calls `paths.next().expect("non empty")`, i.e. it panics when the
path list is empty; the panic is modelled by `none`. -/
def NoIgnore.walk (s : NoIgnore) (path : List String) : Option WalkBuilder :=
  match path with
  | [] => none
  | first :: rest =>
    some
      { paths := first :: rest
        hidden := !s.disregard_hidden
        parents := !s.disregard_parent
        ignore := !s.disregard_dot
        git_global := !s.disregard_vcs && !s.disregard_global
        git_ignore := !s.disregard_vcs
        git_exclude := !s.disregard_vcs && !s.disregard_exclude }

/-- The `InputArgs` struct of args.rs (paths as strings). -/
structure InputArgs where
  paths : List String
  follow : Bool
  no_ignore : List IgnoreFile
  stdin : Bool
  globs : List String
  threads : Nat
deriving DecidableEq, Repr

/-- `InputArgs::get_threads`.  `avail` models
`std::thread::available_parallelism()`: `none` when the query fails,
`some n` for a successful `NonZeroUsize` answer `n`. -/
def InputArgs.get_threads (a : InputArgs) (avail : Option Nat) : Nat :=
  if a.threads = 0 then
    (match avail with
     | none => 1
     | some n => n).min 12
  else
    a.threads

/-- Error context of `InputArgs::walk` (`EC::BuildGlobs`). -/
inductive WalkError where
  | buildGlobs
deriving DecidableEq, Repr

/-- The loop of `InputArgs::build_globs`: add each glob to the
`OverrideBuilder`, failing at the first glob the compiler rejects.
`compile` models the external glob compiler of the `ignore` crate; the
built `Override` is represented by the list of accepted globs. -/
def buildGlobsList (compile : String → Bool) : List String → Except WalkError (List String)
  | [] => .ok []
  | g :: gs =>
    if compile g then
      match buildGlobsList compile gs with
      | .ok rest => .ok (g :: rest)
      | .error e => .error e
    else
      .error .buildGlobs

/-- `InputArgs::build_globs` with the `EC::BuildGlobs` error context attached
by `walk`. -/
def InputArgs.build_globs (a : InputArgs) (compile : String → Bool) :
    Except WalkError (List String) :=
  buildGlobsList compile a.globs

/-- Outcome of `InputArgs::walk`: a returned error, a Rust panic, or the
built parallel walker (whose configuration is the `WalkBuilder` record;
`build_parallel` only freezes that configuration). -/
inductive WalkResult where
  | err (e : WalkError)
  | panicked
  | ok (w : WalkBuilder)
deriving DecidableEq, Repr

/-- `InputArgs::walk`: compute threads, compile the override globs (an
error here is returned with the `BuildGlobs` context before any builder is
constructed), then build the walker via `NoIgnore::disregard`/`walk`,
setting threads, symlink following and the compiled overrides. -/
def InputArgs.walk (a : InputArgs) (compile : String → Bool) (avail : Option Nat) :
    WalkResult :=
  let threads := a.get_threads avail
  match a.build_globs compile with
  | .error e => .err e
  | .ok globs =>
    match (NoIgnore.disregard a.no_ignore).walk a.paths with
    | none => .panicked
    | some b =>
      .ok { b with threads := threads, follow_links := a.follow, overrides := some globs }

/-- Modelled from the spec: the language module (`SgLang`) is not under
src/; a language is represented by its tag. -/
structure SgLang where
  name : String
deriving DecidableEq, Repr

/-- Modelled from the spec: `SgLang::augmented_file_type` (lang module not
under src/) — the recognized file-type set of a language, represented by
the language tag that keys it. -/
def SgLang.augmented_file_type (l : SgLang) : String :=
  l.name

/-- `InputArgs::walk_lang`: build the walker for one language.  It sets
threads, symlink following and the language's file types, and — unlike
`walk` — never compiles or installs the `--globs` overrides.  The panic on
an empty path list is again `none`. -/
def InputArgs.walk_lang (a : InputArgs) (avail : Option Nat) (lang : SgLang) :
    Option WalkBuilder :=
  let threads := a.get_threads avail
  match (NoIgnore.disregard a.no_ignore).walk a.paths with
  | none => none
  | some b =>
    some { b with threads := threads, follow_links := a.follow,
                  types := some lang.augmented_file_type }

/-- The pattern-flag test of `main_with_args`:
`|p| p == "-p" || p == "--pattern"`. -/
def isPatternFlag (p : String) : Bool :=
  p == "-p" || p == "--pattern"

/-- The `should_use_default_run_command` condition of `main_with_args`.
Rust's `&&` short-circuits, so `args[1]` is only read after
`args.iter().skip(1).any(..)` succeeded; an out-of-bounds `args[1]` would
panic, modelled by `none`. -/
def should_use_default_run_command (args : List String) : Option Bool :=
  if (args.drop 1).any isPatternFlag then
    match args[1]? with
    | some a1 => some (a1.startsWith ("-"))
    | none => none
  else
    some false

/-- Does the token list carry the `--json[=style]` flag?  (args.rs declares
`require_equals = true`, so the flag is a lone `--json` or `--json=STYLE`.) -/
def hasFlagJson (args : List String) : Bool :=
  args.any (fun t => t == "--json" || t.startsWith ("--json="))

/-- Does the token list carry the `-i`/`--interactive` flag? -/
def hasFlagInteractive (args : List String) : Bool :=
  args.any (fun t => t == "-i" || t == "--interactive")

/-- Modelled from the spec: the clap parsing engine is an external
collaborator; args.rs declares `conflicts_with = "interactive"` on `json`,
so parsing rejects any invocation carrying both flags. -/
def clapAccepts (args : List String) : Bool :=
  !(hasFlagJson args && hasFlagInteractive args)

/-- Outcome of `main_with_args`: a panic on the `args[1]` index, or a parse
of the default `run` command resp. of the `App` subcommands, recording
whether clap accepted the arguments (`false` means the clap error is
returned by `?` and no command runs). -/
inductive CliOutcome where
  | panicked
  | runParse (accepted : Bool)
  | appParse (accepted : Bool)
deriving DecidableEq, Repr

/-- `main_with_args` of main.rs: decide between the default `run` command
and the subcommand parser, then parse (parse failures are returned before
any command work starts). -/
def main_with_args (args : List String) : CliOutcome :=
  match should_use_default_run_command args with
  | none => .panicked
  | some true => .runParse (clapAccepts args)
  | some false => .appParse (clapAccepts args)

/-- Did `main_with_args` stop with a CLI (clap) parse error? -/
def CliOutcome.cliError : CliOutcome → Bool
  | .runParse accepted => !accepted
  | .appParse accepted => !accepted
  | .panicked => false

/-- Did `main_with_args` go on to run a command's work? -/
def CliOutcome.startedWork : CliOutcome → Bool
  | .runParse accepted => accepted
  | .appParse accepted => accepted
  | .panicked => false

/-- The `SeverityArg` struct of args.rs: five optional override lists. -/
structure SeverityArg where
  error : Option (List String)
  warning : Option (List String)
  info : Option (List String)
  hint : Option (List String)
  off : Option (List String)
deriving DecidableEq, Repr

/-- Rule severities, as in the spec's data model. -/
inductive Severity where
  | Off
  | Hint
  | Info
  | Warning
  | Error
deriving DecidableEq, Repr

/-- Membership of a rule id in an optional override list. -/
def memOpt (o : Option (List String)) (id : String) : Bool :=
  match o with
  | none => false
  | some l => l.contains id

/-- Modelled from the spec: `effective_severity` — the severity-resolution
code consuming `SeverityArg` (scan module) is not under src/.  Resolution
order is fixed: Off, then Error, Warning, Info, Hint, then the rule's own
default. -/
def effective_severity (sa : SeverityArg) (defaultSeverity : Severity) (id : String) :
    Severity :=
  if memOpt sa.off id then .Off
  else if memOpt sa.error id then .Error
  else if memOpt sa.warning id then .Warning
  else if memOpt sa.info id then .Info
  else if memOpt sa.hint id then .Hint
  else defaultSeverity

/-- A rule as the verifier sees it (spec data model §3): id, language,
pattern, severity, optional rewrite. -/
structure Rule where
  id : String
  language : String
  pattern : String
  severity : Severity
  fix : Option String
deriving DecidableEq, Repr

/-- A test case (spec data model §3): rule id, valid and invalid snippets,
optional snapshot directory reference. -/
structure TestCase where
  id : String
  valid : List String
  invalid : List String
  snapshotDir : Option String
deriving DecidableEq, Repr

/-- The verifier's report for one test case: outcome of the valid and
invalid checks, how many snapshot comparisons were performed, and the
overall pass flag. -/
structure TestReport where
  validPassed : Bool
  invalidPassed : Bool
  snapshotComparisons : Nat
  passed : Bool
deriving DecidableEq, Repr

/-- Modelled from the spec: `RuleVerifier.verify` (§4.6) — the verify
module behind `run_test_rule` is not under src/.  `matchCount pattern src`
is the external matching engine oracle; `snapshotMatches` reports whether
the stored snapshot for an invalid snippet equals the rewritten output.
Valid snippets must yield zero matches, invalid ones at least one; with
`skipSnapshotTests` no snapshot comparison happens at all, otherwise one
comparison per invalid snippet when the rule has a rewrite and the case a
snapshot directory. -/
def verify (matchCount : String → String → Nat) (snapshotMatches : String → Bool)
    (rule : Rule) (tc : TestCase) (skipSnapshotTests : Bool) : TestReport :=
  let validPassed := tc.valid.all (fun s => matchCount rule.pattern s == 0)
  let invalidPassed := tc.invalid.all (fun s => matchCount rule.pattern s != 0)
  let doSnapshot := !skipSnapshotTests && rule.fix.isSome && tc.snapshotDir.isSome
  let snapshotComparisons := if doSnapshot then tc.invalid.length else 0
  let snapshotPassed := !doSnapshot || tc.invalid.all snapshotMatches
  { validPassed := validPassed
    invalidPassed := invalidPassed
    snapshotComparisons := snapshotComparisons
    passed := validPassed && invalidPassed && snapshotPassed }

/-- The rule of verify_test.rs: id `test-rule`, TypeScript, pattern
`Some($A)`, severity warning, no rewrite. -/
def testRule : Rule :=
  { id := "test-rule"
    language := "TypeScript"
    pattern := "Some($A)"
    severity := .Warning
    fix := none }

/-- The test case of verify_test.rs: valid `None`, invalid `Some(123)`. -/
def testRuleCase : TestCase :=
  { id := "test-rule"
    valid := ["None"]
    invalid := ["Some(123)"]
    snapshotDir := none }

lemma disregardStep_comm (acc : NoIgnore) (k1 k2 : IgnoreFile) :
    NoIgnore.disregardStep (NoIgnore.disregardStep acc k1) k2 =
      NoIgnore.disregardStep (NoIgnore.disregardStep acc k2) k1 := by
  cases k1 <;> cases k2 <;> rfl

lemma foldl_disregardStep_out (l : List IgnoreFile) (acc : NoIgnore) (k : IgnoreFile) :
    List.foldl NoIgnore.disregardStep (NoIgnore.disregardStep acc k) l =
      NoIgnore.disregardStep (List.foldl NoIgnore.disregardStep acc l) k := by
  induction l generalizing acc with
  | nil => rfl
  | cons b t ih =>
    simp only [List.foldl_cons]
    rw [disregardStep_comm acc k b, ih]

lemma disregard_cons (k : IgnoreFile) (l : List IgnoreFile) :
    NoIgnore.disregard (k :: l) = NoIgnore.disregardStep (NoIgnore.disregard l) k := by
  simp only [NoIgnore.disregard, List.foldl_cons]
  exact foldl_disregardStep_out l {} k

lemma disregard_eq_decide (l : List IgnoreFile) :
    NoIgnore.disregard l =
      ⟨decide (IgnoreFile.Hidden ∈ l), decide (IgnoreFile.Parent ∈ l),
       decide (IgnoreFile.Dot ∈ l), decide (IgnoreFile.Vcs ∈ l),
       decide (IgnoreFile.Global ∈ l), decide (IgnoreFile.Exclude ∈ l)⟩ := by
  induction l with
  | nil => rfl
  | cons k t ih =>
    rw [disregard_cons, ih]
    cases k <;> simp [NoIgnore.disregardStep, List.mem_cons]

lemma buildGlobsList_error (compile : String → Bool) (l : List String)
    (h : ∃ g, g ∈ l ∧ compile g = false) :
    buildGlobsList compile l = .error .buildGlobs := by
  induction l with
  | nil => obtain ⟨g, hg, -⟩ := h; exact absurd hg (List.not_mem_nil g)
  | cons x xs ih =>
    obtain ⟨g, hg, hcg⟩ := h
    unfold buildGlobsList
    by_cases hx : compile x = true
    · rw [if_pos hx]
      have hgx : g ∈ xs := by
        rcases List.mem_cons.mp hg with rfl | hmem
        · rw [hx] at hcg; exact absurd hcg (by simp)
        · exact hmem
      rw [ih ⟨g, hgx, hcg⟩]
    · rw [if_neg hx]

lemma buildGlobsList_ok (compile : String → Bool) (l : List String)
    (h : ∀ g, g ∈ l → compile g = true) :
    buildGlobsList compile l = .ok l := by
  induction l with
  | nil => rfl
  | cons x xs ih =>
    unfold buildGlobsList
    rw [if_pos (h x (List.mem_cons_self x xs)), ih (fun g hg => h g (List.mem_cons_of_mem x hg))]

lemma getElem1_of_any_pattern (args : List String)
    (h : (args.drop 1).any isPatternFlag = true) :
    ∃ a1, args[1]? = some a1 := by
  obtain ⟨x, hx, -⟩ := List.any_eq_true.mp h
  have hpos : 0 < (args.drop 1).length := List.length_pos.mpr (List.ne_nil_of_mem hx)
  have hlen : 1 < args.length := by
    have hd := List.length_drop 1 args
    omega
  exact ⟨args[1], List.getElem?_eq_getElem hlen⟩

lemma should_isSome (args : List String) :
    (should_use_default_run_command args).isSome := by
  unfold should_use_default_run_command
  by_cases h : (args.drop 1).any isPatternFlag = true
  · obtain ⟨a1, ha1⟩ := getElem1_of_any_pattern args h
    rw [if_pos h, ha1]
    rfl
  · rw [if_neg h]
    rfl

/-- Claim C1 counterexample: with an empty root-path set and no globs,
`InputArgs::walk` does not return an error — it panics at
`paths.next().expect("non empty")` — so the claim that walking an empty
root set fails with a `ConfigError` is false on the code. -/
theorem c1_empty_roots_counterexample :
    InputArgs.walk
        { paths := [], follow := false, no_ignore := [], stdin := false,
          globs := [], threads := 1 } (fun _ => true) none = .panicked ∧
      InputArgs.walk
        { paths := [], follow := false, no_ignore := [], stdin := false,
          globs := [], threads := 1 } (fun _ => true) none ≠ .err .buildGlobs := by
  constructor
  · rfl
  · intro h
    exact absurd h (by decide)

/-- Claim C1 (amended): if any user-supplied override glob fails to
compile, `InputArgs::walk` returns the `BuildGlobs` error before the
parallel walker is constructed (and before any walking); if instead the
root-path set is empty (and the globs all compile), `walk` does not return
an error but panics at `expect("non empty")`. -/
theorem c1_walk_fails_before_walking (a : InputArgs) (compile : String → Bool)
    (avail : Option Nat) :
    ((∃ g, g ∈ a.globs ∧ compile g = false) → a.walk compile avail = .err .buildGlobs) ∧
      (a.paths = [] → (∀ g, g ∈ a.globs → compile g = true) →
        a.walk compile avail = .panicked) := by
  constructor
  · intro h
    unfold InputArgs.walk
    rw [show a.build_globs compile = .error .buildGlobs from
      buildGlobsList_error compile a.globs h]
  · intro hpaths hglobs
    unfold InputArgs.walk
    rw [show a.build_globs compile = .ok a.globs from
      buildGlobsList_ok compile a.globs hglobs]
    rw [hpaths]
    rfl

theorem c1_walk_fails_before_walking_witness :
    InputArgs.walk
        { paths := ["."], follow := false, no_ignore := [], stdin := false,
          globs := ["["], threads := 1 } (fun _ => false) none = .err .buildGlobs ∧
      InputArgs.walk
        { paths := [], follow := false, no_ignore := [], stdin := false,
          globs := [], threads := 1 } (fun _ => true) none = .panicked :=
  ⟨(c1_walk_fails_before_walking _ _ _).1 ⟨"[", by simp, rfl⟩,
   (c1_walk_fails_before_walking _ _ _).2 rfl (by simp)⟩

/-- Claim C2: with `threads = 0` the resolved thread count is
`min(available parallelism, 12)` (falling back to 1 when the parallelism
query fails), and for every `InputArgs` the resolved count is at least 1.
The hypothesis records that `available_parallelism` returns a
`NonZeroUsize`. -/
theorem c2_get_threads (a : InputArgs) (avail : Option Nat)
    (hpos : ∀ n, avail = some n → 0 < n) :
    (a.threads = 0 → a.get_threads avail = Nat.min (avail.getD 1) 12) ∧
      1 ≤ a.get_threads avail := by
  unfold InputArgs.get_threads
  constructor
  · intro h
    rw [if_pos h]
    cases avail <;> rfl
  · by_cases h : a.threads = 0
    · rw [if_pos h]
      cases avail with
      | none => decide
      | some n => exact Nat.le_min.mpr ⟨hpos n rfl, by norm_num⟩
    · rw [if_neg h]
      exact Nat.pos_of_ne_zero h

theorem c2_get_threads_witness :
    InputArgs.get_threads
        { paths := ["."], follow := false, no_ignore := [], stdin := false,
          globs := [], threads := 0 } (some 8) =
      Nat.min ((some 8 : Option Nat).getD 1) 12 ∧
      1 ≤ InputArgs.get_threads
        { paths := ["."], follow := false, no_ignore := [], stdin := false,
          globs := [], threads := 0 } (some 8) :=
  ⟨(c2_get_threads _ _ (fun n h => by injection h with h2; omega)).1 rfl,
   (c2_get_threads _ _ (fun n h => by injection h with h2; omega)).2⟩

/-- Claim C3: whenever `Vcs` is among the `--no-ignore` kinds, the walker
built by `NoIgnore::walk` disables the `.gitignore` source entirely —
parent-directory VCS ignore files included — and the git-global and
git-exclude sources, independently of whether `Global` or `Exclude` are
separately present. -/
theorem c3_vcs_superset (l : List IgnoreFile) (p : String) (ps : List String)
    (h : IgnoreFile.Vcs ∈ l) :
    ((NoIgnore.disregard l).walk (p :: ps)).map WalkBuilder.git_ignore = some false ∧
      ((NoIgnore.disregard l).walk (p :: ps)).map WalkBuilder.git_global = some false ∧
      ((NoIgnore.disregard l).walk (p :: ps)).map WalkBuilder.git_exclude = some false := by
  rw [disregard_eq_decide]
  simp [NoIgnore.walk, h]

theorem c3_vcs_superset_witness :
    ((NoIgnore.disregard [IgnoreFile.Vcs, IgnoreFile.Global]).walk ["."]).map
        WalkBuilder.git_ignore = some false ∧
      ((NoIgnore.disregard [IgnoreFile.Vcs, IgnoreFile.Global]).walk ["."]).map
        WalkBuilder.git_global = some false ∧
      ((NoIgnore.disregard [IgnoreFile.Vcs, IgnoreFile.Global]).walk ["."]).map
        WalkBuilder.git_exclude = some false :=
  c3_vcs_superset [IgnoreFile.Vcs, IgnoreFile.Global] "." [] (by decide)

/-- Claim C6: each of `Hidden`, `Dot`, `Exclude`, `Global`, `Parent`
toggles exactly one walk behavior: adding the kind to the `--no-ignore`
set turns exactly its own builder flag off (hidden-file skipping, `.ignore`
files, git-exclude, git-global, parent-directory ignore files) and leaves
every other part of the built walker unchanged. -/
theorem c6_independent_toggles (l : List IgnoreFile) (p : String) (ps : List String) :
    (NoIgnore.disregard (IgnoreFile.Hidden :: l)).walk (p :: ps) =
        ((NoIgnore.disregard l).walk (p :: ps)).map (fun b => { b with hidden := false }) ∧
      (NoIgnore.disregard (IgnoreFile.Dot :: l)).walk (p :: ps) =
        ((NoIgnore.disregard l).walk (p :: ps)).map (fun b => { b with ignore := false }) ∧
      (NoIgnore.disregard (IgnoreFile.Exclude :: l)).walk (p :: ps) =
        ((NoIgnore.disregard l).walk (p :: ps)).map (fun b => { b with git_exclude := false }) ∧
      (NoIgnore.disregard (IgnoreFile.Global :: l)).walk (p :: ps) =
        ((NoIgnore.disregard l).walk (p :: ps)).map (fun b => { b with git_global := false }) ∧
      (NoIgnore.disregard (IgnoreFile.Parent :: l)).walk (p :: ps) =
        ((NoIgnore.disregard l).walk (p :: ps)).map (fun b => { b with parents := false }) := by
  refine ⟨?_, ?_, ?_, ?_, ?_⟩ <;>
    simp [disregard_cons, NoIgnore.disregardStep, NoIgnore.walk, Bool.and_false]

/-- Claim C9: `NoIgnore::disregard` depends only on the set of kinds in
its argument list — membership-equivalent lists (any permutation, any
duplication) produce identical `NoIgnore` values. -/
theorem c9_disregard_set_semantics (l1 l2 : List IgnoreFile)
    (h : ∀ k, k ∈ l1 ↔ k ∈ l2) :
    NoIgnore.disregard l1 = NoIgnore.disregard l2 := by
  rw [disregard_eq_decide, disregard_eq_decide]
  simp only [NoIgnore.mk.injEq]
  exact ⟨decide_eq_decide.mpr (h _), decide_eq_decide.mpr (h _),
    decide_eq_decide.mpr (h _), decide_eq_decide.mpr (h _),
    decide_eq_decide.mpr (h _), decide_eq_decide.mpr (h _)⟩

theorem c9_disregard_set_semantics_witness :
    NoIgnore.disregard [IgnoreFile.Hidden, IgnoreFile.Dot, IgnoreFile.Hidden] =
      NoIgnore.disregard [IgnoreFile.Dot, IgnoreFile.Hidden] :=
  c9_disregard_set_semantics _ _ (by decide)

/-- Override globs carried by the walker a successful `walk` built. -/
def WalkResult.getOverrides : WalkResult → Option (List String)
  | .ok b => b.overrides
  | .err _ => none
  | .panicked => none

/-- Claim C4 (code bug): `walk_lang` does not install the `--globs`
overrides.  On the same `InputArgs` with `globs = ["*.rs"]`, `walk` builds
a walker carrying the compiled overrides `["*.rs"]`, while `walk_lang`
builds one with no overrides at all (it never even compiles them), so the
language-restricted walk is not filtered by the user-supplied globs. -/
theorem c4_walk_lang_ignores_globs :
    (InputArgs.walk_lang
        { paths := ["."], follow := false, no_ignore := [], stdin := false,
          globs := ["*.rs"], threads := 1 } (some 4) ⟨"rust"⟩).map
        WalkBuilder.overrides = some none ∧
      (InputArgs.walk
        { paths := ["."], follow := false, no_ignore := [], stdin := false,
          globs := ["*.rs"], threads := 1 } (fun _ => true) (some 4)).getOverrides =
        some ["*.rs"] := by
  constructor <;> rfl

/-- Claim C5: an invocation carrying both `--json` and `-i` (or
`--interactive`) fails at argument parsing with a CLI error — on both the default-run path
and the subcommand path — and no command work is started. -/
theorem c5_json_interactive_conflict (args : List String)
    (hj : hasFlagJson args = true) (hi : hasFlagInteractive args = true) :
    (main_with_args args).cliError = true ∧
      (main_with_args args).startedWork = false := by
  have hacc : clapAccepts args = false := by
    simp [clapAccepts, hj, hi]
  have hs := should_isSome args
  rcases hc : should_use_default_run_command args with - | b
  · rw [hc] at hs
    exact absurd hs (by simp)
  · cases b <;>
      simp [main_with_args, hc, CliOutcome.cliError, CliOutcome.startedWork, hacc]

theorem c5_json_interactive_conflict_witness :
    (main_with_args ["sg", "--json", "-i"]).cliError = true ∧
      (main_with_args ["sg", "--json", "-i"]).startedWork = false :=
  c5_json_interactive_conflict ["sg", "--json", "-i"] (by decide) (by decide)

/-- Claim C10: `main_with_args` never panics on its `args[1]` access, it
parses the arguments as the default `run` command exactly when some
argument after the program name is `-p`/`--pattern` and the first argument
after the program name begins with `-`, and otherwise it parses them as a
subcommand invocation. -/
theorem c10_default_run_detection (args : List String) :
    (should_use_default_run_command args).isSome ∧
      (should_use_default_run_command args = some true ↔
        ((∃ p, p ∈ args.drop 1 ∧ (p = "-p" ∨ p = "--pattern")) ∧
          ∃ a1, args[1]? = some a1 ∧ a1.startsWith ("-") = true)) ∧
      main_with_args args =
        (if should_use_default_run_command args = some true then
          CliOutcome.runParse (clapAccepts args)
        else
          CliOutcome.appParse (clapAccepts args)) := by
  refine ⟨should_isSome args, ?_, ?_⟩
  · by_cases h : (args.drop 1).any isPatternFlag = true
    · obtain ⟨a1, ha1⟩ := getElem1_of_any_pattern args h
      simp only [should_use_default_run_command, if_pos h, ha1]
      constructor
      · intro heq
        have hstart : a1.startsWith ("-") = true := by
          simpa using heq
        refine ⟨?_, a1, rfl, hstart⟩
        obtain ⟨x, hx, hpx⟩ := List.any_eq_true.mp h
        exact ⟨x, hx, by simpa [isPatternFlag] using hpx⟩
      · rintro ⟨-, a1', ha1', hstart⟩
        injection ha1' with ha1e
        rw [ha1e]
        simp [hstart]
    · simp only [should_use_default_run_command, if_neg h]
      constructor
      · intro heq
        exact absurd heq (by simp)
      · rintro ⟨⟨p, hp, hpat⟩, -⟩
        refine absurd (List.any_eq_true.mpr ⟨p, hp, ?_⟩) h
        rcases hpat with rfl | rfl <;> rfl
  · have hs := should_isSome args
    rcases hc : should_use_default_run_command args with - | b
    · rw [hc] at hs
      exact absurd hs (by simp)
    · cases b <;> simp [main_with_args, hc]

/-- Claim C7: a rule id listed in both the `--off` and the `--error`
override lists resolves to `Off` — in the fixed resolution order `Off` is
consulted first, before `Error`, `Warning`, `Info`, `Hint` and the rule's
own default. -/
theorem c7_off_precedence (sa : SeverityArg) (defaultSeverity : Severity) (id : String)
    (hoff : memOpt sa.off id = true) (_herr : memOpt sa.error id = true) :
    effective_severity sa defaultSeverity id = .Off := by
  unfold effective_severity
  rw [if_pos hoff]

theorem c7_off_precedence_witness :
    effective_severity
        { error := some ["x"], warning := none, info := none, hint := none,
          off := some ["x"] } .Warning "x" = .Off :=
  c7_off_precedence _ _ _ (by decide) (by decide)

/-- Claim C8: for rule `test-rule` (pattern `Some($A)`) and the test case
with valid sample `None` and invalid sample `Some(123)`, running the
verifier with skip-snapshot-tests performs zero snapshot comparisons even
when a snapshot directory is declared, reports the valid sample passed
(zero matches), the invalid sample passed (a match exists), and overall
success.  The hypotheses record the matching-engine oracle's answers on
the two samples. -/
theorem c8_skip_snapshot_scenario (mc : String → String → Nat) (sm : String → Bool)
    (d : Option String)
    (hvalid : mc ("Some($A)") ("None") = 0)
    (hinvalid : mc ("Some($A)") ("Some(123)") ≠ 0) :
    (verify mc sm testRule { testRuleCase with snapshotDir := d } true).validPassed = true ∧
      (verify mc sm testRule { testRuleCase with snapshotDir := d } true).invalidPassed = true ∧
      (verify mc sm testRule { testRuleCase with snapshotDir := d } true).snapshotComparisons = 0 ∧
      (verify mc sm testRule { testRuleCase with snapshotDir := d } true).passed = true := by
  simp [verify, testRule, testRuleCase, hvalid, hinvalid]

theorem c8_skip_snapshot_scenario_witness :
    (verify (fun _ s => if s == ("Some(123)") then 1 else 0) (fun _ => false) testRule
        { testRuleCase with snapshotDir := some "snap" } true).validPassed = true ∧
      (verify (fun _ s => if s == ("Some(123)") then 1 else 0) (fun _ => false) testRule
        { testRuleCase with snapshotDir := some "snap" } true).invalidPassed = true ∧
      (verify (fun _ s => if s == ("Some(123)") then 1 else 0) (fun _ => false) testRule
        { testRuleCase with snapshotDir := some "snap" } true).snapshotComparisons = 0 ∧
      (verify (fun _ s => if s == ("Some(123)") then 1 else 0) (fun _ => false) testRule
        { testRuleCase with snapshotDir := some "snap" } true).passed = true :=
  c8_skip_snapshot_scenario _ _ _ (by decide) (by decide)
